import Mathlib

/- Shallow embedding of the nextjs-turnstile repository.

The repository ships several coexisting implementation variants of the same
design.  Each namespace below embeds one source variant:

  NT.Utils        src/src/utils/verifyTurnstile.ts        (two result modes)
  NT.Legacy       verifyTurnstile of src/unnamed/part_000 (throwing variant)
  NT.LoaderA      first  loadTurnstileScript of src/unnamed/part_001
  NT.LoaderB      second loadTurnstileScript of src/unnamed/part_001
  NT.Widget       Turnstile component lifecycle of src/unnamed/part_008
  NT.ExplicitComp registry handling of src/src/components/TurnstileExplicit.tsx

Asynchronous effects (fetch, script loading, React effect scheduling) are
embedded as explicit state passing: the outcome of a fetch is an input value,
and the host scheduling of effect runs, cleanups and promise continuations is
an explicit event trace. -/

deriving instance DecidableEq for Except

namespace NT

/-- JavaScript truthiness filter for an optional string: undefined and the
empty string are falsy, everything else is kept. -/
def truthyStr : Option String → Option String
  | some s => if s = "" then none else some s
  | none => none

/-- JavaScript truthiness filter for an optional number: undefined and 0 are
falsy. -/
def truthyNat : Option Nat → Option Nat
  | some n => if n = 0 then none else some n
  | none => none

/-- Value passed as the token argument of the verifier: either a string or
some non-string JavaScript value (the source checks typeof at runtime). -/
inductive JsToken
  | str (s : String)
  | nonString
  deriving DecidableEq

namespace Utils

/-- Closed error-code enumeration of src/src/utils/verifyTurnstile.ts. -/
inductive TurnstileErrorCode
  | missingInputSecret
  | invalidInputSecret
  | missingInputResponse
  | invalidInputResponse
  | badRequest
  | timeoutOrDuplicate
  | internalError
  | invalidTokenFormat
  | tokenTooLong
  | actionMismatch
  | hostnameMismatch
  | tokenTooOld
  | validationTimeout
  deriving DecidableEq

/-- Options record of src/src/utils/verifyTurnstile.ts.  The headers option is
folded into the environment value clientIp, which stands for the resolved
result of getClientIp. -/
structure VerifyOptions where
  secretKey : Option String := none
  ip : Option String := none
  action : Option String := none
  hostname : Option String := none
  timeout : Option Nat := none
  idempotencyKey : Option String := none
  maxTokenAge : Option ℚ := none
  returnFullResponse : Bool := false
  deriving DecidableEq

/-- Ambient inputs of one call: the TURNSTILE_SECRET_KEY environment variable,
the IP produced by getClientIp, and the wall clock read by the age check. -/
structure VerifyEnv where
  envSecretKey : Option String := none
  clientIp : Option String := none
  nowMs : Int := 0
  deriving DecidableEq

/-- Parsed JSON body of the siteverify response, restricted to the fields the
source reads.  challengeTsMs is the epoch value of new Date(challenge_ts). -/
structure SiteverifyResponse where
  success : Bool
  errorCodes : List TurnstileErrorCode := []
  challengeTsMs : Int := 0
  hostname : String := ""
  action : String := ""
  cdata : String := ""
  deriving DecidableEq

/-- Outcome of the awaited fetch call: an AbortError rejection, any other
rejection (identified by a numeric tag), or a settled HTTP response. -/
inductive FetchOutcome
  | abortError
  | jsError (e : Nat)
  | response (ok : Bool) (body : SiteverifyResponse)
  deriving DecidableEq

/-- JSON request body sent to the siteverify endpoint. -/
structure RequestBody where
  secret : String
  response : String
  remoteip : Option String := none
  idempotencyKey : Option String := none
  deriving DecidableEq

/-- Returned value of one call, covering both result modes of the source. -/
inductive VerifyReturn
  | boolResult (b : Bool)
  | fullSuccess (r : SiteverifyResponse)
  | fullFailure (codes : List TurnstileErrorCode)
  deriving DecidableEq

/-- Thrown (not returned) failures: missing secret, non-2xx transport status,
and rethrown non-AbortError fetch rejections. -/
inductive Thrown
  | secretMissing
  | requestFailed
  | rethrown (e : Nat)
  deriving DecidableEq

/-- Observable record of one call: its result plus whether and how the fetch
was issued (body sent, abort timer installed, abort signal passed). -/
structure VerifyRun where
  result : Except Thrown VerifyReturn
  fetchCalled : Bool
  fetchBody : Option RequestBody
  timerMs : Option Nat
  signalPassed : Bool
  deriving DecidableEq

/-- Run that exits before reaching the fetch call. -/
def noFetch (r : Except Thrown VerifyReturn) : VerifyRun :=
  { result := r, fetchCalled := false, fetchBody := none,
    timerMs := none, signalPassed := false }

/-- Failure value in the mode selected by returnFullResponse. -/
def failure (o : VerifyOptions) (codes : List TurnstileErrorCode) : VerifyReturn :=
  if o.returnFullResponse then .fullFailure codes else .boolResult false

/-- Success value in the mode selected by returnFullResponse. -/
def success (o : VerifyOptions) (r : SiteverifyResponse) : VerifyReturn :=
  if o.returnFullResponse then .fullSuccess r else .boolResult true

/-- Line 168 of the source: options.action is tested for truthiness and then
strictly compared against the action echoed by the service. -/
def actionMismatchB (o : VerifyOptions) (r : SiteverifyResponse) : Bool :=
  match truthyStr o.action with
  | some a => r.action != a
  | none => false

/-- Line 179 of the source: same shape for the hostname check. -/
def hostnameMismatchB (o : VerifyOptions) (r : SiteverifyResponse) : Bool :=
  match truthyStr o.hostname with
  | some h => r.hostname != h
  | none => false

/-- Line 193 of the source: ageSeconds = (now.getTime() - challengeTime.getTime()) / 1000. -/
def ageSeconds (e : VerifyEnv) (r : SiteverifyResponse) : ℚ :=
  ((e.nowMs - r.challengeTsMs : Int) : ℚ) / 1000

/-- Line 190 of the source: the age check runs only when maxTokenAge is not
undefined, and fails on ageSeconds > maxTokenAge. -/
def ageExceeded (o : VerifyOptions) (e : VerifyEnv) (r : SiteverifyResponse) : Bool :=
  match o.maxTokenAge with
  | some m => decide (m < ageSeconds e r)
  | none => false

/-- Post-validation chain of lines 159 to 207: action match, hostname match,
token age, then success in the requested mode. -/
def postChecks (o : VerifyOptions) (e : VerifyEnv) (r : SiteverifyResponse) : VerifyReturn :=
  if actionMismatchB o r then failure o [.actionMismatch]
  else if hostnameMismatchB o r then failure o [.hostnameMismatch]
  else if ageExceeded o e r then failure o [.timeoutOrDuplicate]
  else success o r

/-- Try/catch logic around the awaited fetch, lines 135 to 217: an AbortError
becomes a validation-timeout result, other rejections are rethrown, a non-2xx
status is thrown, a success=false body is returned as a failure carrying the
service codes (the full mode returns the service body itself). -/
def handleOutcome (o : VerifyOptions) (e : VerifyEnv) : FetchOutcome → Except Thrown VerifyReturn
  | .abortError => .ok (failure o [.validationTimeout])
  | .jsError n => .error (.rethrown n)
  | .response ok body =>
    if !ok then .error .requestFailed
    else if !body.success then .ok (failure o body.errorCodes)
    else .ok (postChecks o e body)

/-- Line 124: nullish fallback to the environment secret, then a truthiness
test (an empty secret also throws). -/
def resolveSecret (o : VerifyOptions) (e : VerifyEnv) : Option String :=
  truthyStr (Option.orElse o.secretKey (fun _ => e.envSecretKey))

/-- Lines 127 to 132: body with secret, response, truthy remoteip and the
caller-supplied idempotency key only (this variant never generates one). -/
def requestBody (token : String) (o : VerifyOptions) (e : VerifyEnv)
    (secret : String) : RequestBody :=
  { secret := secret, response := token,
    remoteip := truthyStr (Option.orElse o.ip (fun _ => e.clientIp)),
    idempotencyKey := truthyStr o.idempotencyKey }

/-- Embedding of verifyTurnstile, src/src/utils/verifyTurnstile.ts lines 109
to 218.  Note line 137: a timer and an abort signal are installed only when
options.timeout is truthy; there is no default timeout in this variant. -/
def verifyTurnstile (token : JsToken) (o : VerifyOptions) (e : VerifyEnv)
    (fetch : FetchOutcome) : VerifyRun :=
  match token with
  | .nonString => noFetch (.ok (failure o [.invalidTokenFormat]))
  | .str s =>
    if s = "" then noFetch (.ok (failure o [.invalidTokenFormat]))
    else if 2048 < s.length then noFetch (.ok (failure o [.tokenTooLong]))
    else
      match resolveSecret o e with
      | none => noFetch (.error .secretMissing)
      | some secret =>
        { result := handleOutcome o e fetch,
          fetchCalled := true,
          fetchBody := some (requestBody s o e secret),
          timerMs := truthyNat o.timeout,
          signalPassed := (truthyNat o.timeout).isSome }

end Utils

namespace Legacy

/-- Largest accepted token length, src/unnamed/part_000 line 4. -/
def TOKEN_MAX_LENGTH : Nat := 2048

/-- Default fetch timeout, src/unnamed/part_000 line 5. -/
def DEFAULT_TIMEOUT_MS : Nat := 10000

/-- Options record of the part_000 verifier.  It has no idempotencyKey, no
maxTokenAge and no returnFullResponse options. -/
structure VerifyOptions where
  secretKey : Option String := none
  ip : Option String := none
  action : Option String := none
  hostname : Option String := none
  timeout : Option Nat := none
  deriving DecidableEq

/-- Ambient inputs: the secret environment variable, the resolved client IP,
and the value produced by crypto.randomUUID, none when the runtime lacks it
(the source wraps the call in try/catch and skips the field). -/
structure VerifyEnv where
  envSecretKey : Option String := none
  clientIp : Option String := none
  randomUUID : Option String := none
  deriving DecidableEq

/-- Parsed siteverify JSON restricted to the fields this variant reads. -/
structure SiteverifyJson where
  success : Bool
  errorCodes : Option (List String) := none
  action : Option String := none
  hostname : Option String := none
  deriving DecidableEq

/-- Outcome of the awaited fetch call. -/
inductive FetchOutcome
  | abortError
  | jsError (e : Nat)
  | response (ok : Bool) (json : SiteverifyJson)
  deriving DecidableEq

/-- Thrown failures of the part_000 verifier: the TurnstileError class with
its raw string codes, the missing-secret configuration error, the non-2xx
transport error, and rethrown foreign rejections. -/
inductive VerifyError
  | turnstileError (errorCodes : List String)
  | secretMissing
  | requestFailed
  | rethrown (e : Nat)
  deriving DecidableEq

/-- JSON request body of the part_000 verifier. -/
structure RequestBody where
  secret : String
  response : String
  remoteip : Option String := none
  idempotencyKey : Option String := none
  deriving DecidableEq

/-- Observable record of one call: result (true or a thrown error), plus
whether and how the fetch was issued. -/
structure VerifyRun where
  result : Except VerifyError Bool
  fetchCalled : Bool
  fetchBody : Option RequestBody
  timeoutMs : Option Nat
  signalPassed : Bool
  deriving DecidableEq

/-- Run that exits before reaching the fetch call. -/
def noFetch (r : Except VerifyError Bool) : VerifyRun :=
  { result := r, fetchCalled := false, fetchBody := none,
    timeoutMs := none, signalPassed := false }

/-- Lines 89 to 95 of part_000: nullish fallback to the environment secret,
then the truthiness test of the throw guard. -/
def resolveSecret (o : VerifyOptions) (e : VerifyEnv) : Option String :=
  truthyStr (Option.orElse o.secretKey (fun _ => e.envSecretKey))

/-- Line 149 of part_000: options.action !== undefined (a nullish test, not a
truthiness test) and strict inequality against the JSON field. -/
def actionMismatchB (o : VerifyOptions) (j : SiteverifyJson) : Bool :=
  match o.action with
  | some a => j.action != some a
  | none => false

/-- Line 153 of part_000: same shape for the hostname check. -/
def hostnameMismatchB (o : VerifyOptions) (j : SiteverifyJson) : Bool :=
  match o.hostname with
  | some h => j.hostname != some h
  | none => false

/-- Fetch handling of part_000 lines 114 to 157: AbortError throws
TurnstileError timeout-error, other rejections are rethrown, non-2xx throws,
success=false throws the service codes (unknown-error when absent), then the
post checks throw on mismatch and the call returns true. -/
def handleOutcome (o : VerifyOptions) : FetchOutcome → Except VerifyError Bool
  | .abortError => .error (.turnstileError ["timeout-error"])
  | .jsError n => .error (.rethrown n)
  | .response ok json =>
    if !ok then .error .requestFailed
    else if !json.success then .error (.turnstileError (json.errorCodes.getD ["unknown-error"]))
    else if actionMismatchB o json then .error (.turnstileError ["action-mismatch"])
    else if hostnameMismatchB o json then .error (.turnstileError ["hostname-mismatch"])
    else .ok true

/-- Embedding of verifyTurnstile, src/unnamed/part_000 lines 78 to 158.  The
body always carries a fresh crypto.randomUUID as idempotency_key when the
runtime provides one, the timer always runs at options.timeout ?? 10000, and
the abort signal is always passed. -/
def verifyTurnstile (token : JsToken) (o : VerifyOptions) (e : VerifyEnv)
    (fetch : FetchOutcome) : VerifyRun :=
  match token with
  | .nonString => noFetch (.error (.turnstileError ["missing-input-response"]))
  | .str s =>
    if s = "" then noFetch (.error (.turnstileError ["missing-input-response"]))
    else if TOKEN_MAX_LENGTH < s.length then
      noFetch (.error (.turnstileError ["invalid-input-response"]))
    else
      match resolveSecret o e with
      | none => noFetch (.error .secretMissing)
      | some secret =>
        { result := handleOutcome o fetch,
          fetchCalled := true,
          fetchBody := some
            { secret := secret, response := s,
              remoteip := truthyStr (Option.orElse o.ip (fun _ => e.clientIp)),
              idempotencyKey := e.randomUUID },
          timeoutMs := some (o.timeout.getD DEFAULT_TIMEOUT_MS),
          signalPassed := true }

end Legacy

namespace LoaderA

/-- Script polling interval (ms), src/unnamed/part_001 line 132. -/
def SCRIPT_POLL_INTERVAL : Nat := 100

/-- Script load timeout (ms), src/unnamed/part_001 line 129. -/
def SCRIPT_LOAD_TIMEOUT : Nat := 10000

/-- Window and document state read and written by the first
loadTurnstileScript of part_001 (lines 168 to 260).  Promises are identified
by the counter nextPromiseId; the cache slot is window.__turnstile_load_promise__.
scriptTagPresent stands for a script element whose src starts with the
Turnstile base URL being in the document. -/
structure LoaderState where
  cachedPromise : Option Nat := none
  turnstile : Bool := false
  scriptTagPresent : Bool := false
  appendCount : Nat := 0
  nextPromiseId : Nat := 0
  deriving DecidableEq

/-- Embedding of the first loadTurnstileScript of part_001: return the cached
promise when present; otherwise build a new promise whose executor runs
synchronously (resolve at once when window.turnstile exists, poll when a
matching script tag exists, otherwise append a new script element to the
document head), and cache it. -/
def loadTurnstileScript (s : LoaderState) : Nat × LoaderState :=
  match s.cachedPromise with
  | some p => (p, s)
  | none =>
    let p := s.nextPromiseId
    if s.turnstile || s.scriptTagPresent then
      (p, { s with cachedPromise := some p, nextPromiseId := p + 1 })
    else
      (p, { s with cachedPromise := some p, nextPromiseId := p + 1,
                   appendCount := s.appendCount + 1, scriptTagPresent := true })

/-- N successive same-process calls, collecting the promise each caller
receives. -/
def loadN : Nat → LoaderState → List Nat × LoaderState
  | 0, s => ([], s)
  | n + 1, s =>
    let (p, s1) := loadTurnstileScript s
    let (ps, s2) := loadN n s1
    (p :: ps, s2)

/-- Settlement state of the polling promise of lines 194 to 210: waiting with
the current elapsed counter, resolved, or rejected with the load-timeout
error. -/
inductive PollStatus
  | waiting (elapsed : Nat)
  | resolved
  | rejected
  deriving DecidableEq

/-- One setInterval firing of the polling loop (lines 197 to 207): elapsed is
advanced by the interval, then window.turnstile is tested, then the timeout. -/
def pollStep (turnstilePresent : Bool) : PollStatus → PollStatus
  | .waiting e =>
    let e2 := e + SCRIPT_POLL_INTERVAL
    if turnstilePresent then .resolved
    else if SCRIPT_LOAD_TIMEOUT ≤ e2 then .rejected
    else .waiting e2
  | st => st

/-- Status after k firings, where present i tells whether window.turnstile
exists when firing i runs. -/
def pollRun (present : Nat → Bool) : Nat → PollStatus
  | 0 => .waiting 0
  | k + 1 => pollStep (present k) (pollRun present k)

end LoaderA

namespace LoaderB

/-- Load mode of the second loadTurnstileScript of part_001 (line 513). -/
inductive Mode
  | implicitMode
  | explicitMode
  deriving DecidableEq

/-- Window and document state of the second loadTurnstileScript of part_001
(lines 512 to 559).  The promise cache is keyed by mode
(window.__turnstile_promise_implicit and window.__turnstile_promise_explicit);
the querySelector probe matches any script whose src starts with the shared
base URL, whichever mode appended it. -/
structure LoaderState where
  cachedImplicit : Option Nat := none
  cachedExplicit : Option Nat := none
  scriptTagPresent : Bool := false
  appendCount : Nat := 0
  nextPromiseId : Nat := 0
  deriving DecidableEq

/-- Cache slot for a mode. -/
def cacheOf (s : LoaderState) : Mode → Option Nat
  | .implicitMode => s.cachedImplicit
  | .explicitMode => s.cachedExplicit

/-- State with the cache slot of a mode set. -/
def setCache (s : LoaderState) (m : Mode) (p : Nat) : LoaderState :=
  match m with
  | .implicitMode => { s with cachedImplicit := some p }
  | .explicitMode => { s with cachedExplicit := some p }

/-- Embedding of the second loadTurnstileScript of part_001: return the cached
promise of the mode when present; otherwise run the executor synchronously
(poll without appending when a matching script tag already exists, otherwise
append a script element for the mode) and cache the new promise under the
mode key.  This variant has no window.turnstile fast path. -/
def loadTurnstileScript (m : Mode) (s : LoaderState) : Nat × LoaderState :=
  match cacheOf s m with
  | some p => (p, s)
  | none =>
    let p := s.nextPromiseId
    if s.scriptTagPresent then
      (p, setCache { s with nextPromiseId := p + 1 } m p)
    else
      (p, setCache { s with nextPromiseId := p + 1,
                            appendCount := s.appendCount + 1,
                            scriptTagPresent := true } m p)

/-- N successive same-process calls for one mode. -/
def loadN (m : Mode) : Nat → LoaderState → List Nat × LoaderState
  | 0, s => ([], s)
  | n + 1, s =>
    let (p, s1) := loadTurnstileScript m s
    let (ps, s2) := loadN m n s1
    (p :: ps, s2)

/-- Settlement state of the polling promise of lines 525 to 535.  The rejected
state is part of what a promise can reach; this polling loop, however, has no
timeout branch that could produce it. -/
inductive PollStatus
  | waiting
  | resolved
  | rejected
  deriving DecidableEq

/-- One setInterval firing (lines 528 to 533): resolve when window.turnstile
exists, otherwise keep waiting.  No elapsed counter, no timeout test. -/
def pollStep (turnstilePresent : Bool) : PollStatus → PollStatus
  | .waiting => if turnstilePresent then .resolved else .waiting
  | st => st

/-- Status after k firings. -/
def pollRun (present : Nat → Bool) : Nat → PollStatus
  | 0 => .waiting
  | k + 1 => pollStep (present k) (pollRun present k)

end LoaderB

namespace Widget

/-- State of one mounted Turnstile component instance of src/unnamed/part_008
together with the document and adapter facts its effect reads and writes.
isMounted is isMountedRef, hasRendered is hasRenderedRef (the attempting
flag), widgetId is widgetIdRef, isReady is the React state, containerExists
says containerRef.current is non-null, containerAttached says
document.body.contains(container), containerIframe says the container holds
the widget iframe, turnstileAvailable says window.turnstile exists,
pendingThens counts continuations queued on the shared script-load promise,
renderCalls and removeCalls count adapter invocations. -/
structure CState where
  isMounted : Bool := true
  hasRendered : Bool := false
  widgetId : Option Nat := none
  isReady : Bool := false
  containerExists : Bool := true
  containerAttached : Bool := true
  containerIframe : Bool := false
  turnstileAvailable : Bool := true
  pendingThens : Nat := 0
  renderCalls : Nat := 0
  removeCalls : Nat := 0
  nextWidgetId : Nat := 0
  deriving DecidableEq

/-- One run of the effect body, part_008 lines 444 to 499: set the mounted
flag, return when the container is missing; check 1 returns when hasRendered
is set; check 2 treats a cached id with hasRendered clear as a configuration
change and removes the cached widget; check 3 returns when the container
already holds a widget iframe; otherwise set the attempting flag and chain a
continuation on the shared script-load promise. -/
def effectStep (s : CState) : CState :=
  let s := { s with isMounted := true }
  if !s.containerExists then s
  else if s.hasRendered then s
  else
    let s :=
      match s.widgetId with
      | some _ =>
        let s :=
          if s.turnstileAvailable then
            { s with containerIframe := false, removeCalls := s.removeCalls + 1 }
          else s
        { s with widgetId := none, isReady := false }
      | none => s
    if s.containerIframe then s
    else { s with hasRendered := true, pendingThens := s.pendingThens + 1 }

/-- One run of the effect cleanup, part_008 lines 619 to 645: clear the
mounted flag; a real unmount (container gone or detached) with a cached id
removes the widget and clears id, attempting flag and readiness; any other
cleanup only clears the attempting flag. -/
def cleanupStep (s : CState) : CState :=
  let s := { s with isMounted := false }
  if (!s.containerExists || !s.containerAttached) && s.widgetId.isSome then
    let s :=
      if s.turnstileAvailable then
        { s with containerIframe := false, removeCalls := s.removeCalls + 1 }
      else s
    { s with widgetId := none, hasRendered := false, isReady := false }
  else
    { s with hasRendered := false }

/-- One queued continuation of the resolved script-load promise, part_008
lines 500 to 608, with the adapter behaving nominally: abort and clear the
attempting flag when unmounted, the container vanished or the API object is
missing; short-circuit to ready when the container already holds an iframe or
an id is already cached; otherwise call the adapter render, which returns a
fresh valid id and mounts the widget iframe in the container. -/
def thenStep (s : CState) : CState :=
  match s.pendingThens with
  | 0 => s
  | n + 1 =>
    let s := { s with pendingThens := n }
    if !s.isMounted || !s.containerExists then { s with hasRendered := false }
    else if !s.turnstileAvailable then { s with hasRendered := false }
    else if s.containerIframe then { s with isReady := true }
    else if s.widgetId.isSome then { s with isReady := true }
    else
      let rid := s.nextWidgetId
      let s := { s with renderCalls := s.renderCalls + 1, containerIframe := true,
                        widgetId := some rid, nextWidgetId := rid + 1 }
      if s.isMounted then { s with isReady := true } else s

/-- Host-driven events: an effect run, an effect cleanup, or the event loop
running one continuation queued on the shared script-load promise. -/
inductive HostEvent
  | effect
  | cleanup
  | resolveThen
  deriving DecidableEq

/-- Apply one host event. -/
def hostStep (s : CState) : HostEvent → CState
  | .effect => effectStep s
  | .cleanup => cleanupStep s
  | .resolveThen => thenStep s

/-- Run a whole event trace. -/
def runTrace (es : List HostEvent) (s : CState) : CState := es.foldl hostStep s

/-- Fresh component instance right after the first commit, before any effect
has run, with the container rendered and attached and the remote script
reachable. -/
def initialState : CState := {}

/-- Double-invoked setup with an interleaved transient cleanup and no real
unmount.  The flag picks when the shared script-load promise resolution runs
its continuations relative to the second effect run: resolveEarly runs the
first continuation between the transient cleanup and the second effect run,
otherwise all continuations run after the second effect run. -/
def strictRemountTrace (resolveEarly : Bool) : List HostEvent :=
  if resolveEarly then
    [.effect, .cleanup, .resolveThen, .effect, .resolveThen]
  else
    [.effect, .cleanup, .effect, .resolveThen, .resolveThen]

end Widget

namespace ExplicitComp

/-- Module-scoped registries of src/unnamed/part_001 line 480: the shared
sets usedContainerIds and usedResponseFieldNames, modelled as duplicate-free
lists. -/
structure Registries where
  usedContainerIds : List String := []
  usedResponseFieldNames : List String := []
  deriving DecidableEq

/-- Outcome of the registration prologue of an effect run: a thrown duplicate
error or the updated registries. -/
inductive EffectResult
  | duplicateContainerId
  | duplicateResponseFieldName
  | registered (r : Registries)
  deriving DecidableEq

/-- Registration prologue of the TurnstileExplicit effect,
src/src/components/TurnstileExplicit.tsx lines 78 to 97: throw on a duplicate
container id, insert it, then (when a truthy responseFieldName is given)
throw on a duplicate field name and insert it. -/
def registerIds (id : String) (responseFieldName : Option String)
    (r : Registries) : EffectResult :=
  if id ∈ r.usedContainerIds then .duplicateContainerId
  else
    let r := { r with usedContainerIds := id :: r.usedContainerIds }
    match truthyStr responseFieldName with
    | some f =>
      if f ∈ r.usedResponseFieldNames then .duplicateResponseFieldName
      else .registered { r with usedResponseFieldNames := f :: r.usedResponseFieldNames }
    | none => .registered r

/-- Effect cleanup of TurnstileExplicit, lines 146 to 155: it always deletes
the container id and the truthy field name from the registries and removes
the widget when one was rendered.  The containerAttached argument records
whether the container is still in the document; the source cleanup never
inspects it.  The Bool of the result tells whether the adapter remove was
invoked. -/
def cleanup (id : String) (responseFieldName : Option String)
    (localWidgetId : Option String) (containerAttached : Bool)
    (r : Registries) : Registries × Bool :=
  let _ := containerAttached
  let r := { r with usedContainerIds := r.usedContainerIds.erase id }
  let r :=
    match truthyStr responseFieldName with
    | some f => { r with usedResponseFieldNames := r.usedResponseFieldNames.erase f }
    | none => r
  (r, (truthyStr localWidgetId).isSome)

end ExplicitComp

/-- Concrete token of 2049 characters, one past the accepted maximum. -/
def bigToken : String := String.mk (List.replicate 2049 (Char.ofNat 97))

/-- C1: when the widget controller is mounted twice in immediate succession
with an interleaved transient cleanup and no real unmount in between, the
adapter render function is invoked exactly once, whichever way the shared
script-load promise resolution is scheduled relative to the second mount. -/
theorem c1_strict_remount_single_render (resolveEarly : Bool) :
    (Widget.runTrace (Widget.strictRemountTrace resolveEarly)
      Widget.initialState).renderCalls = 1 := by
  cases resolveEarly <;> decide

theorem loaderA_load_cached (s : LoaderA.LoaderState) (p : Nat)
    (h : s.cachedPromise = some p) : LoaderA.loadTurnstileScript s = (p, s) := by
  unfold LoaderA.loadTurnstileScript
  rw [h]

theorem loaderA_loadN_cached (n : Nat) (s : LoaderA.LoaderState) (p : Nat)
    (h : s.cachedPromise = some p) :
    LoaderA.loadN n s = (List.replicate n p, s) := by
  induction n with
  | zero => simp [LoaderA.loadN]
  | succ k ih => simp [LoaderA.loadN, loaderA_load_cached s p h, ih, List.replicate_succ]

theorem loaderA_load_caches (s : LoaderA.LoaderState) :
    ((LoaderA.loadTurnstileScript s).2).cachedPromise
      = some (LoaderA.loadTurnstileScript s).1 := by
  unfold LoaderA.loadTurnstileScript
  cases h : s.cachedPromise with
  | some p => simp [h]
  | none => dsimp; split <;> simp

theorem loaderA_load_append_le (s : LoaderA.LoaderState) :
    (LoaderA.loadTurnstileScript s).2.appendCount ≤ s.appendCount + 1 := by
  unfold LoaderA.loadTurnstileScript
  cases h : s.cachedPromise with
  | some p => simp [h]
  | none => dsimp; split <;> simp

theorem loaderB_cacheOf_setCache (s : LoaderB.LoaderState) (m : LoaderB.Mode) (p : Nat) :
    LoaderB.cacheOf (LoaderB.setCache s m p) m = some p := by
  cases m <;> simp [LoaderB.cacheOf, LoaderB.setCache]

theorem loaderB_setCache_appendCount (s : LoaderB.LoaderState) (m : LoaderB.Mode) (p : Nat) :
    (LoaderB.setCache s m p).appendCount = s.appendCount := by
  cases m <;> simp [LoaderB.setCache]

theorem loaderB_load_cached (m : LoaderB.Mode) (s : LoaderB.LoaderState) (p : Nat)
    (h : LoaderB.cacheOf s m = some p) : LoaderB.loadTurnstileScript m s = (p, s) := by
  unfold LoaderB.loadTurnstileScript
  rw [h]

theorem loaderB_loadN_cached (m : LoaderB.Mode) (n : Nat) (s : LoaderB.LoaderState) (p : Nat)
    (h : LoaderB.cacheOf s m = some p) :
    LoaderB.loadN m n s = (List.replicate n p, s) := by
  induction n with
  | zero => simp [LoaderB.loadN]
  | succ k ih => simp [LoaderB.loadN, loaderB_load_cached m s p h, ih, List.replicate_succ]

theorem loaderB_load_caches (m : LoaderB.Mode) (s : LoaderB.LoaderState) :
    LoaderB.cacheOf (LoaderB.loadTurnstileScript m s).2 m
      = some (LoaderB.loadTurnstileScript m s).1 := by
  unfold LoaderB.loadTurnstileScript
  cases h : LoaderB.cacheOf s m with
  | some p => simp [h]
  | none => dsimp; split <;> simp [loaderB_cacheOf_setCache]

theorem loaderB_load_append_le (m : LoaderB.Mode) (s : LoaderB.LoaderState) :
    (LoaderB.loadTurnstileScript m s).2.appendCount ≤ s.appendCount + 1 := by
  unfold LoaderB.loadTurnstileScript
  cases h : LoaderB.cacheOf s m with
  | some p => simp [h]
  | none => dsimp; split <;> simp [loaderB_setCache_appendCount]

/-- C2: for both loader variants, N successive same-process calls for one
variant append at most one script element over the whole process lifetime,
and all N callers receive the same cached promise. -/
theorem c2_loader_single_injection (n : Nat) (sa : LoaderA.LoaderState)
    (m : LoaderB.Mode) (sb : LoaderB.LoaderState) :
    ((LoaderA.loadN n sa).2.appendCount ≤ sa.appendCount + 1
      ∧ ∀ p ∈ (LoaderA.loadN n sa).1, ∀ q ∈ (LoaderA.loadN n sa).1, p = q)
    ∧ ((LoaderB.loadN m n sb).2.appendCount ≤ sb.appendCount + 1
      ∧ ∀ p ∈ (LoaderB.loadN m n sb).1, ∀ q ∈ (LoaderB.loadN m n sb).1, p = q) := by
  constructor
  · cases n with
    | zero => simp [LoaderA.loadN]
    | succ k =>
      have hc := loaderA_load_caches sa
      have hrw : LoaderA.loadN (k + 1) sa
          = (List.replicate (k + 1) (LoaderA.loadTurnstileScript sa).1,
             (LoaderA.loadTurnstileScript sa).2) := by
        simp [LoaderA.loadN, loaderA_loadN_cached k _ _ hc, List.replicate_succ]
      refine ⟨?_, ?_⟩
      · rw [hrw]; exact loaderA_load_append_le sa
      · rw [hrw]
        intro p hp q hq
        rw [List.eq_of_mem_replicate hp, List.eq_of_mem_replicate hq]
  · cases n with
    | zero => simp [LoaderB.loadN]
    | succ k =>
      have hc := loaderB_load_caches m sb
      have hrw : LoaderB.loadN m (k + 1) sb
          = (List.replicate (k + 1) (LoaderB.loadTurnstileScript m sb).1,
             (LoaderB.loadTurnstileScript m sb).2) := by
        simp [LoaderB.loadN, loaderB_loadN_cached m k _ _ hc, List.replicate_succ]
      refine ⟨?_, ?_⟩
      · rw [hrw]; exact loaderB_load_append_le m sb
      · rw [hrw]
        intro p hp q hq
        rw [List.eq_of_mem_replicate hp, List.eq_of_mem_replicate hq]

/-- C2 witness: three calls on a fresh window give every caller promise 0 and
append exactly one script element, for both loader variants. -/
theorem c2_loader_single_injection_witness :
    (0 : Nat) ∈ (LoaderA.loadN 3 {}).1 ∧ (0 : Nat) ∈ (LoaderB.loadN .explicitMode 3 {}).1
    ∧ ((0 : Nat) = 0)
    ∧ (LoaderA.loadN 3 {}).2.appendCount ≤ 0 + 1
    ∧ (LoaderB.loadN .explicitMode 3 {}).2.appendCount ≤ 0 + 1 :=
  ⟨by decide, by decide,
   (c2_loader_single_injection 3 {} .explicitMode {}).1.2 0 (by decide) 0 (by decide),
   (c2_loader_single_injection 3 {} .explicitMode {}).1.1,
   (c2_loader_single_injection 3 {} .explicitMode {}).2.1⟩

/-- C5 counterexample: in the second loader variant, a script-load call that
finds a matching script tag polls without any timeout: after 101 firings of
the 100ms interval (past the claimed 10s bound) with the global API still
absent, the shared promise is still pending, not rejected. -/
theorem c5_counterexample :
    LoaderB.pollRun (fun _ => false) 101 = .waiting := by decide

theorem loaderB_pollRun_ne_rejected (present : Nat → Bool) (k : Nat) :
    LoaderB.pollRun present k ≠ .rejected := by
  induction k with
  | zero => simp [LoaderB.pollRun]
  | succ j ih =>
    rw [LoaderB.pollRun]
    cases hj : LoaderB.pollRun present j with
    | waiting => cases present j <;> simp [LoaderB.pollStep]
    | resolved => simp [LoaderB.pollStep]
    | rejected => exact absurd hj ih

/-- C5 amended: only the first loader variant bounds its polling wait: with
the global API absent throughout, it waits with elapsed 100ms per firing for
the first 99 firings and rejects from the 100th firing (the 10s timeout) on;
the second loader variant polls at the same interval but never rejects. -/
theorem c5_amended_poll_bound (present : Nat → Bool) (k : Nat)
    (h : ∀ i, i < k → present i = false) :
    (LoaderA.pollRun present k
      = if k < 100 then .waiting (100 * k) else .rejected)
    ∧ LoaderB.pollRun present k ≠ .rejected := by
  refine ⟨?_, loaderB_pollRun_ne_rejected present k⟩
  induction k with
  | zero => simp [LoaderA.pollRun]
  | succ j ih =>
    have hj : present j = false := h j (Nat.lt_succ_self j)
    have ihj := ih (fun i hi => h i (Nat.lt_succ_of_lt hi))
    rw [LoaderA.pollRun, ihj]
    by_cases hlt : j < 100
    · rw [if_pos hlt]
      simp only [LoaderA.pollStep, hj, Bool.false_eq_true, if_false,
        LoaderA.SCRIPT_POLL_INTERVAL, LoaderA.SCRIPT_LOAD_TIMEOUT]
      by_cases hlt2 : j + 1 < 100
      · rw [if_neg (by omega), if_pos hlt2, show 100 * j + 100 = 100 * (j + 1) by omega]
      · rw [if_pos (by omega), if_neg hlt2]
    · rw [if_neg hlt, if_neg (by omega)]
      rfl

/-- C5 amended witness: with the API never appearing, the first loader is
rejected exactly at the 100th firing and the second is never rejected. -/
theorem c5_amended_poll_bound_witness :
    (∀ i, i < 100 → (fun _ => false : Nat → Bool) i = false)
    ∧ LoaderA.pollRun (fun _ => false) 100 = .rejected
    ∧ LoaderB.pollRun (fun _ => false) 100 ≠ .rejected := by
  refine ⟨fun i _ => rfl, ?_, ?_⟩
  · have h := (c5_amended_poll_bound (fun _ => false) 100 (fun i _ => rfl)).1
    simpa using h
  · exact (c5_amended_poll_bound (fun _ => false) 100 (fun i _ => rfl)).2

/-- C8 counterexample: a controller that has completed its render (one render
call, cached id 0, ready) and then receives a transient cleanup (container
still attached; id and readiness indeed preserved) does not short-circuit on
the next mount pass: the pass takes the configuration-change branch and a
second adapter render is issued. -/
theorem c8_counterexample :
    (Widget.runTrace [.effect, .resolveThen] Widget.initialState).renderCalls = 1
    ∧ (Widget.runTrace [.effect, .resolveThen, .cleanup] Widget.initialState).widgetId = some 0
    ∧ (Widget.runTrace [.effect, .resolveThen, .cleanup] Widget.initialState).isReady = true
    ∧ (Widget.runTrace [.effect, .resolveThen, .cleanup, .effect, .resolveThen]
        Widget.initialState).renderCalls = 2 := by decide

/-- C8 amended: a transient cleanup (container still in the document) clears
the attempting flag and marks the controller unmounted while preserving the
cached widget id, the readiness state, the container content and the adapter
call counts; the next mount pass, however, does not short-circuit on the
preserved id: with a cached id it removes the cached widget (one adapter
remove) and chains a fresh render attempt. -/
theorem c8_amended_transient_cleanup (s : Widget.CState)
    (hc : s.containerExists = true) (ha : s.containerAttached = true) :
    ((Widget.cleanupStep s).isMounted = false
      ∧ (Widget.cleanupStep s).hasRendered = false
      ∧ (Widget.cleanupStep s).widgetId = s.widgetId
      ∧ (Widget.cleanupStep s).isReady = s.isReady
      ∧ (Widget.cleanupStep s).containerIframe = s.containerIframe
      ∧ (Widget.cleanupStep s).renderCalls = s.renderCalls
      ∧ (Widget.cleanupStep s).removeCalls = s.removeCalls)
    ∧ ((Widget.runTrace [.effect, .resolveThen, .cleanup, .effect]
          Widget.initialState).removeCalls = 1
      ∧ (Widget.runTrace [.effect, .resolveThen, .cleanup, .effect]
          Widget.initialState).widgetId = none
      ∧ (Widget.runTrace [.effect, .resolveThen, .cleanup, .effect]
          Widget.initialState).pendingThens = 1) := by
  constructor
  · unfold Widget.cleanupStep
    rw [hc, ha]
    simp
  · exact ⟨by decide, by decide, by decide⟩

/-- C8 amended witness: the frame property applied to the concrete state
reached after a completed render. -/
theorem c8_amended_transient_cleanup_witness :
    ((Widget.runTrace [.effect, .resolveThen] Widget.initialState).containerExists = true)
    ∧ ((Widget.runTrace [.effect, .resolveThen] Widget.initialState).containerAttached = true)
    ∧ (Widget.cleanupStep (Widget.runTrace [.effect, .resolveThen] Widget.initialState)).widgetId
        = (Widget.runTrace [.effect, .resolveThen] Widget.initialState).widgetId :=
  ⟨by decide, by decide,
   (c8_amended_transient_cleanup
     (Widget.runTrace [.effect, .resolveThen] Widget.initialState)
     (by decide) (by decide)).1.2.2.1⟩

/-- C9 counterexample: a freshly registered container id and response field
name are released by a transient cleanup in which the container is still
attached to the document, contradicting the claim that they are only released
at real-unmount teardown. -/
theorem c9_counterexample :
    ExplicitComp.registerIds ("cf-a") (some ("tok")) {}
      = .registered { usedContainerIds := ["cf-a"], usedResponseFieldNames := ["tok"] }
    ∧ ("cf-a") ∉ (ExplicitComp.cleanup ("cf-a") (some ("tok")) none true
        { usedContainerIds := ["cf-a"], usedResponseFieldNames := ["tok"] }).1.usedContainerIds
    ∧ ("tok") ∉ (ExplicitComp.cleanup ("cf-a") (some ("tok")) none true
        { usedContainerIds := ["cf-a"], usedResponseFieldNames := ["tok"] }).1.usedResponseFieldNames := by
  decide

/-- C9 amended: the registry entries of a widget instance are released at
every effect cleanup, transient cleanups with the container still attached
included: after a successful registration, the cleanup restores the
registries exactly, whichever value the container-attachment flag has, so the
next effect run can register the same identifiers again without a duplicate
error. -/
theorem c9_amended_release_on_every_cleanup (id : String) (fld : Option String)
    (w : Option String) (attached : Bool) (r : ExplicitComp.Registries)
    (h1 : id ∉ r.usedContainerIds)
    (h2 : ∀ f, truthyStr fld = some f → f ∉ r.usedResponseFieldNames) :
    ∃ r2, ExplicitComp.registerIds id fld r = .registered r2
      ∧ (ExplicitComp.cleanup id fld w attached r2).1 = r := by
  cases hf : truthyStr fld with
  | none =>
    refine ⟨{ usedContainerIds := id :: r.usedContainerIds,
              usedResponseFieldNames := r.usedResponseFieldNames }, ?_, ?_⟩
    · simp [ExplicitComp.registerIds, h1, hf]
    · simp [ExplicitComp.cleanup, hf]
  | some f =>
    refine ⟨{ usedContainerIds := id :: r.usedContainerIds,
              usedResponseFieldNames := f :: r.usedResponseFieldNames }, ?_, ?_⟩
    · simp [ExplicitComp.registerIds, h1, hf, h2 f hf]
    · simp [ExplicitComp.cleanup, hf]

/-- C9 amended witness: concrete registration and transient-attached cleanup
restoring the empty registries. -/
theorem c9_amended_release_on_every_cleanup_witness :
    (("cf-b") ∉ (({} : ExplicitComp.Registries)).usedContainerIds)
    ∧ ∃ r2, ExplicitComp.registerIds ("cf-b") (some ("fld")) {} = .registered r2
        ∧ (ExplicitComp.cleanup ("cf-b") (some ("fld")) none true r2).1 = {} :=
  ⟨by decide,
   c9_amended_release_on_every_cleanup ("cf-b") (some ("fld")) none true {}
     (by decide) (fun f hf => by simp)⟩

theorem utils_verify_reaches_fetch (s sk : String) (o : Utils.VerifyOptions)
    (e : Utils.VerifyEnv) (f : Utils.FetchOutcome)
    (hs : s ≠ "") (hlen : s.length ≤ 2048) (hsk : Utils.resolveSecret o e = some sk) :
    Utils.verifyTurnstile (.str s) o e f =
      { result := Utils.handleOutcome o e f,
        fetchCalled := true,
        fetchBody := some (Utils.requestBody s o e sk),
        timerMs := truthyNat o.timeout,
        signalPassed := (truthyNat o.timeout).isSome } := by
  simp only [Utils.verifyTurnstile]
  rw [if_neg hs, if_neg (show ¬ 2048 < s.length by omega), hsk]

theorem legacy_verify_reaches_fetch (s sk : String) (o : Legacy.VerifyOptions)
    (e : Legacy.VerifyEnv) (f : Legacy.FetchOutcome)
    (hs : s ≠ "") (hlen : s.length ≤ 2048) (hsk : Legacy.resolveSecret o e = some sk) :
    Legacy.verifyTurnstile (.str s) o e f =
      { result := Legacy.handleOutcome o f,
        fetchCalled := true,
        fetchBody := some
          { secret := sk, response := s,
            remoteip := truthyStr (Option.orElse o.ip (fun _ => e.clientIp)),
            idempotencyKey := e.randomUUID },
        timeoutMs := some (o.timeout.getD Legacy.DEFAULT_TIMEOUT_MS),
        signalPassed := true } := by
  simp only [Legacy.verifyTurnstile]
  rw [if_neg hs,
      if_neg (show ¬ Legacy.TOKEN_MAX_LENGTH < s.length by
        unfold Legacy.TOKEN_MAX_LENGTH; omega),
      hsk]

/-- C3 counterexample: a call on the src/src/utils variant with no timeout
option reaches the network step with no abort timer installed and no abort
signal passed to fetch, instead of the claimed 10 second default bound. -/
theorem c3_counterexample :
    (Utils.verifyTurnstile (.str ("tok")) {} { envSecretKey := some ("s") }
      (.response true { success := true })).fetchCalled = true
    ∧ (Utils.verifyTurnstile (.str ("tok")) {} { envSecretKey := some ("s") }
      (.response true { success := true })).timerMs = none
    ∧ (Utils.verifyTurnstile (.str ("tok")) {} { envSecretKey := some ("s") }
      (.response true { success := true })).signalPassed = false := by
  decide

/-- C3 amended: only the part_000 variant issues the POST with a bounded
timeout defaulting to 10000 ms (the caller value otherwise) and always passes
the abort signal; the src/src/utils variant installs a timer and an abort
signal only when the caller supplies a nonzero timeout, equal to that value,
and issues the fetch with no timer and no signal otherwise. -/
theorem c3_amended_timeout (s sk lsk : String) (o : Utils.VerifyOptions)
    (e : Utils.VerifyEnv) (f : Utils.FetchOutcome)
    (lo : Legacy.VerifyOptions) (le : Legacy.VerifyEnv) (lf : Legacy.FetchOutcome)
    (hs : s ≠ "") (hlen : s.length ≤ 2048)
    (hsk : Utils.resolveSecret o e = some sk)
    (hlsk : Legacy.resolveSecret lo le = some lsk) :
    ((Utils.verifyTurnstile (.str s) o e f).fetchCalled = true
      ∧ (o.timeout = none →
          (Utils.verifyTurnstile (.str s) o e f).timerMs = none
          ∧ (Utils.verifyTurnstile (.str s) o e f).signalPassed = false)
      ∧ (∀ t, o.timeout = some t → t ≠ 0 →
          (Utils.verifyTurnstile (.str s) o e f).timerMs = some t
          ∧ (Utils.verifyTurnstile (.str s) o e f).signalPassed = true))
    ∧ ((Legacy.verifyTurnstile (.str s) lo le lf).fetchCalled = true
      ∧ (Legacy.verifyTurnstile (.str s) lo le lf).timeoutMs
          = some (lo.timeout.getD 10000)
      ∧ (Legacy.verifyTurnstile (.str s) lo le lf).signalPassed = true) := by
  rw [utils_verify_reaches_fetch s sk o e f hs hlen hsk,
      legacy_verify_reaches_fetch s lsk lo le lf hs hlen hlsk]
  refine ⟨⟨rfl, ?_, ?_⟩, rfl, rfl, rfl⟩
  · intro ht
    simp [truthyNat, ht]
  · intro t ht htz
    simp [truthyNat, ht, htz]

/-- C3 amended witness: a concrete call with defaulted options on both
variants. -/
theorem c3_amended_timeout_witness :
    (("tok" : String) ≠ "")
    ∧ (Utils.verifyTurnstile (.str ("tok")) {} { envSecretKey := some ("s") }
        (.response true { success := true })).timerMs = none
    ∧ (Legacy.verifyTurnstile (.str ("tok")) {} { envSecretKey := some ("s") }
        (.response true { success := true })).timeoutMs = some 10000 := by
  have h := c3_amended_timeout ("tok") ("s") ("s") {} { envSecretKey := some ("s") }
    (.response true { success := true }) {} { envSecretKey := some ("s") }
    (.response true { success := true }) (by decide) (by decide) (by decide) (by decide)
  exact ⟨by decide, (h.1.2.1 rfl).1, by simpa using h.2.2.1⟩

/-- C4 counterexample: on the src/src/utils variant a call that supplies no
idempotencyKey option reaches the network step with a body that carries no
idempotency_key field at all, although nothing makes UUID generation
unavailable: this variant never generates one. -/
theorem c4_counterexample :
    (Utils.verifyTurnstile (.str ("tok")) {} { envSecretKey := some ("s") }
      (.response true { success := true })).fetchCalled = true
    ∧ (Utils.verifyTurnstile (.str ("tok")) {} { envSecretKey := some ("s") }
      (.response true { success := true })).fetchBody
      = some { secret := "s", response := "tok",
               remoteip := none, idempotencyKey := none } := by
  decide

/-- C4 amended: the src/src/utils variant sends idempotency_key exactly when
the caller supplies a truthy idempotencyKey option, with that value, and
omits the field otherwise (it never generates one); the part_000 variant,
which has no idempotencyKey option, always sends a freshly generated
crypto.randomUUID value when the runtime provides one and silently omits the
field only when generation is unavailable. -/
theorem c4_amended_idempotency (s sk lsk : String) (o : Utils.VerifyOptions)
    (e : Utils.VerifyEnv) (f : Utils.FetchOutcome)
    (lo : Legacy.VerifyOptions) (le : Legacy.VerifyEnv) (lf : Legacy.FetchOutcome)
    (hs : s ≠ "") (hlen : s.length ≤ 2048)
    (hsk : Utils.resolveSecret o e = some sk)
    (hlsk : Legacy.resolveSecret lo le = some lsk) :
    (∃ b, (Utils.verifyTurnstile (.str s) o e f).fetchBody = some b
        ∧ b.idempotencyKey = truthyStr o.idempotencyKey)
    ∧ (∃ b, (Legacy.verifyTurnstile (.str s) lo le lf).fetchBody = some b
        ∧ b.idempotencyKey = le.randomUUID) := by
  rw [utils_verify_reaches_fetch s sk o e f hs hlen hsk,
      legacy_verify_reaches_fetch s lsk lo le lf hs hlen hlsk]
  exact ⟨⟨_, rfl, rfl⟩, ⟨_, rfl, rfl⟩⟩

/-- C4 amended witness: a caller-supplied key is sent verbatim by the
src/src/utils variant, and the part_000 variant sends the generated UUID. -/
theorem c4_amended_idempotency_witness :
    (("tok" : String) ≠ "")
    ∧ (∃ b, (Utils.verifyTurnstile (.str ("tok")) { idempotencyKey := some ("k1") }
          { envSecretKey := some ("s") } (.response true { success := true })).fetchBody
          = some b
        ∧ b.idempotencyKey = truthyStr (some ("k1")))
    ∧ (∃ b, (Legacy.verifyTurnstile (.str ("tok")) {}
          { envSecretKey := some ("s"), randomUUID := some ("u") }
          (.response true { success := true })).fetchBody = some b
        ∧ b.idempotencyKey = some ("u")) := by
  have h := c4_amended_idempotency ("tok") ("s") ("s")
    { idempotencyKey := some ("k1") } { envSecretKey := some ("s") }
    (.response true { success := true }) {}
    { envSecretKey := some ("s"), randomUUID := some ("u") }
    (.response true { success := true }) (by decide) (by decide) (by decide) (by decide)
  exact ⟨by decide, h.1, h.2⟩

/-- C6: a call on the src/src/utils variant whose fetch is aborted by the
timeout path returns a validation-timeout failure in full-response mode and
false in boolean mode; the abort never escapes as a thrown error. -/
theorem c6_abort_returns_timeout (s sk : String) (o : Utils.VerifyOptions)
    (e : Utils.VerifyEnv) (hs : s ≠ "") (hlen : s.length ≤ 2048)
    (hsk : Utils.resolveSecret o e = some sk) :
    (Utils.verifyTurnstile (.str s) o e .abortError).result
      = .ok (if o.returnFullResponse then .fullFailure [.validationTimeout]
             else .boolResult false) := by
  rw [utils_verify_reaches_fetch s sk o e .abortError hs hlen hsk]
  rfl

/-- C6 witness: concrete aborted calls in boolean and full-response mode. -/
theorem c6_abort_returns_timeout_witness :
    (("tok" : String) ≠ "")
    ∧ (Utils.verifyTurnstile (.str ("tok")) {} { envSecretKey := some ("s") }
        .abortError).result = .ok (.boolResult false)
    ∧ (Utils.verifyTurnstile (.str ("tok")) { returnFullResponse := true }
        { envSecretKey := some ("s") } .abortError).result
        = .ok (.fullFailure [.validationTimeout]) := by
  refine ⟨by decide, ?_, ?_⟩
  · have h := c6_abort_returns_timeout ("tok") ("s") {} { envSecretKey := some ("s") }
      (by decide) (by decide) (by decide)
    simpa using h
  · have h := c6_abort_returns_timeout ("tok") ("s") { returnFullResponse := true }
      { envSecretKey := some ("s") } (by decide) (by decide) (by decide)
    simpa using h

/-- C7: every token longer than 2048 characters produces a failure with no
network call in both verifier variants: token-too-long (or false in boolean
mode) on the src/src/utils variant, and a thrown TurnstileError carrying
invalid-input-response on the part_000 variant. -/
theorem c7_token_too_long_no_network (s : String) (o : Utils.VerifyOptions)
    (e : Utils.VerifyEnv) (f : Utils.FetchOutcome) (lo : Legacy.VerifyOptions)
    (le : Legacy.VerifyEnv) (lf : Legacy.FetchOutcome) (h : 2048 < s.length) :
    (Utils.verifyTurnstile (.str s) o e f).fetchCalled = false
    ∧ (Utils.verifyTurnstile (.str s) o e f).result
        = .ok (if o.returnFullResponse then .fullFailure [.tokenTooLong]
               else .boolResult false)
    ∧ (Legacy.verifyTurnstile (.str s) lo le lf).fetchCalled = false
    ∧ (Legacy.verifyTurnstile (.str s) lo le lf).result
        = .error (.turnstileError ["invalid-input-response"]) := by
  have hs : s ≠ "" := by
    intro h0
    rw [h0] at h
    exact absurd h (by decide)
  simp only [Utils.verifyTurnstile, Legacy.verifyTurnstile]
  rw [if_neg hs, if_pos h, if_neg hs,
      if_pos (show Legacy.TOKEN_MAX_LENGTH < s.length from h)]
  exact ⟨rfl, rfl, rfl, rfl⟩

/-- C7 witness: a concrete token of 2049 characters. -/
theorem c7_token_too_long_no_network_witness :
    2048 < bigToken.length
    ∧ (Utils.verifyTurnstile (.str bigToken) {} {}
        (.response true { success := true })).fetchCalled = false
    ∧ (Legacy.verifyTurnstile (.str bigToken) {} {}
        (.response true { success := true })).result
        = .error (.turnstileError ["invalid-input-response"]) :=
  ⟨by norm_num [bigToken, String.length_mk],
   (c7_token_too_long_no_network bigToken {} {} (.response true { success := true })
     {} {} (.response true { success := true })
     (by norm_num [bigToken, String.length_mk])).1,
   (c7_token_too_long_no_network bigToken {} {} (.response true { success := true })
     {} {} (.response true { success := true })
     (by norm_num [bigToken, String.length_mk])).2.2.2⟩

/-- C10: with maxTokenAge set and a successful remote response that passes
the action and hostname checks, the age check of the src/src/utils variant
uses a strict inequality: a computed age equal to maxTokenAge (or below) is
accepted, and only a strictly larger age is converted into a
timeout-or-duplicate failure. -/
theorem c10_age_strict_inequality (s sk : String) (o : Utils.VerifyOptions)
    (e : Utils.VerifyEnv) (body : Utils.SiteverifyResponse) (m : ℚ)
    (hs : s ≠ "") (hlen : s.length ≤ 2048)
    (hsk : Utils.resolveSecret o e = some sk)
    (hm : o.maxTokenAge = some m) (hsucc : body.success = true)
    (hact : Utils.actionMismatchB o body = false)
    (hhost : Utils.hostnameMismatchB o body = false) :
    (Utils.ageSeconds e body ≤ m →
      (Utils.verifyTurnstile (.str s) o e (.response true body)).result
        = .ok (Utils.success o body))
    ∧ (m < Utils.ageSeconds e body →
      (Utils.verifyTurnstile (.str s) o e (.response true body)).result
        = .ok (Utils.failure o [.timeoutOrDuplicate])) := by
  rw [utils_verify_reaches_fetch s sk o e _ hs hlen hsk]
  constructor
  · intro hage
    show Utils.handleOutcome o e (.response true body) = _
    simp [Utils.handleOutcome, hsucc, Utils.postChecks, hact, hhost,
      Utils.ageExceeded, hm, not_lt.mpr hage]
  · intro hage
    show Utils.handleOutcome o e (.response true body) = _
    simp [Utils.handleOutcome, hsucc, Utils.postChecks, hact, hhost,
      Utils.ageExceeded, hm, hage]

/-- C10 witness: with maxTokenAge 300 seconds, an age of exactly 300 seconds
is accepted and an age of 300.001 seconds is rejected as
timeout-or-duplicate. -/
theorem c10_age_strict_inequality_witness :
    Utils.ageSeconds { envSecretKey := some ("s"), nowMs := 300000 } { success := true } = 300
    ∧ (Utils.verifyTurnstile (.str ("tok")) { maxTokenAge := some 300 }
        { envSecretKey := some ("s"), nowMs := 300000 }
        (.response true { success := true })).result
      = .ok (Utils.success { maxTokenAge := some 300 } { success := true })
    ∧ (Utils.verifyTurnstile (.str ("tok")) { maxTokenAge := some 300 }
        { envSecretKey := some ("s"), nowMs := 300001 }
        (.response true { success := true })).result
      = .ok (Utils.failure { maxTokenAge := some 300 } [.timeoutOrDuplicate]) :=
  ⟨by norm_num [Utils.ageSeconds],
   (c10_age_strict_inequality ("tok") ("s") { maxTokenAge := some 300 }
     { envSecretKey := some ("s"), nowMs := 300000 } { success := true } 300
     (by decide) (by decide) (by decide) rfl rfl rfl rfl).1
     (by norm_num [Utils.ageSeconds]),
   (c10_age_strict_inequality ("tok") ("s") { maxTokenAge := some 300 }
     { envSecretKey := some ("s"), nowMs := 300001 } { success := true } 300
     (by decide) (by decide) (by decide) rfl rfl rfl rfl).2
     (by norm_num [Utils.ageSeconds])⟩

end NT
